import Mathlib

/-
Verification of the gitlab client bindings (users and commits services).

The development shallowly embeds the two source files:
  * commits.go  — CommitsService and its methods,
  * the users service file — UsersService and its methods.

Pure URL construction, the status-code switches of BlockUser/UnblockUser,
and the option-struct query encodings are transcribed directly from the
source.  Parts of the repository that are outside the provided sources
(parseID, Client.NewRequest, Client.Do, ListOptions) are modelled from the
specification and are marked as such in their doc comments.
-/

set_option maxHeartbeats 1000000

namespace Gitlab

/-- Go error value: a non-nil Go `error` is represented by its message. -/
structure GoError where
  msg : String
deriving DecidableEq, Repr

/-- The part of an http.Response the client code inspects: its status code. -/
structure Response where
  StatusCode : Nat
deriving DecidableEq, Repr

/-- An HTTP request as built by the service methods: verb and URL path
relative to the API base. -/
structure HttpRequest where
  method : String
  url : String
deriving DecidableEq, Repr

/-- Modelled from the spec: the shared client handle (base URL handling and
auth headers are delegated to the underlying HTTP transport, treated as
given).  Client itself is defined outside the provided sources. -/
structure Client where
  baseURL : String
  token : String
deriving DecidableEq, Repr

/-- UsersService handles communication with the user related methods. -/
structure UsersService where
  client : Client
deriving DecidableEq, Repr

/-- CommitsService handles communication with the commit related methods. -/
structure CommitsService where
  client : Client
deriving DecidableEq, Repr

/-- Modelled from the spec: the outcome of the one HTTP round trip that
Client.Do performs, as seen by the service method.  Either the transport
fails outright, or the server replies with a status code and the response
body decodes to a value of type alpha or fails to decode. -/
inductive Transport (α : Type) where
  | netError (err : GoError)
  | reply (status : Nat) (decoded : Except GoError α)

/-- Modelled from the spec: Client.Do (defined outside the provided
sources) performs the round trip and surfaces transport and decode
failures directly to the caller; it does no status-code mapping of its
own (spec section 7: errors are transport/decode failures surfaced
directly, or the hand-mapped status codes inside block/unblock).  On
failure it returns the response obtained so far (if any) together with
the error; on success it returns the response and the decoded value. -/
def clientDo {α : Type} : Transport α → Except (Option Response × GoError) (Response × α)
  | .netError e => .error (none, e)
  | .reply st (.error e) => .error (some ⟨st⟩, e)
  | .reply st (.ok v) => .ok (⟨st⟩, v)

/-- Modelled from the spec: Client.NewRequest (defined outside the provided
sources) builds an HTTP request from the verb and the relative URL the
method constructed; it can fail, and such failures are surfaced directly
to the caller.  The oracle `fail` says whether it fails on this call. -/
def newRequest (method url : String) (fail : Option GoError) : Except GoError HttpRequest :=
  match fail with
  | some e => .error e
  | none => .ok ⟨method, url⟩

/-- A project id argument, Go type interface{}: an int, a string, or a
value of any other type (described by its Go syntax for the error text). -/
inductive PID where
  | int (i : Int)
  | str (s : String)
  | other (descr : String)
deriving DecidableEq, Repr

/-- Modelled from the spec: parseID (defined outside the provided sources)
turns the interface{} project id into a string: ints are formatted in
decimal, strings pass through, every other type is rejected with an
error. -/
def parseID : PID → Except GoError String
  | .int i => .ok (toString i)
  | .str s => .ok s
  | .other d => .error ⟨"invalid ID type " ++ d ++ ", the ID must be an int or a string"⟩

/-! ## Go url.QueryEscape

The source escapes identifiers with url.QueryEscape before interpolating
them into URL path templates.  Go strings are byte sequences; bytes are
modelled as natural numbers below 256. -/

/-- UTF-8 encoding of one character, as Go produces when a string is viewed
as bytes. -/
def utf8EncodeChar (c : Char) : List Nat :=
  if c.toNat < 128 then [c.toNat]
  else if c.toNat < 2048 then
    [192 ||| ((c.toNat >>> 6) &&& 31), 128 ||| (c.toNat &&& 63)]
  else if c.toNat < 65536 then
    [224 ||| ((c.toNat >>> 12) &&& 15), 128 ||| ((c.toNat >>> 6) &&& 63),
      128 ||| (c.toNat &&& 63)]
  else
    [240 ||| ((c.toNat >>> 18) &&& 7), 128 ||| ((c.toNat >>> 12) &&& 63),
      128 ||| ((c.toNat >>> 6) &&& 63), 128 ||| (c.toNat &&& 63)]

/-- The UTF-8 bytes of a string, Go's []byte(s). -/
def stringBytes : List Char → List Nat
  | [] => []
  | c :: cs => utf8EncodeChar c ++ stringBytes cs

/-- Bytes Go's net/url shouldEscape leaves untouched in query-component
mode: ASCII alphanumerics and the unreserved marks - _ . ~ . -/
def isUnreservedByte (b : Nat) : Bool :=
  (65 ≤ b && b ≤ 90) || (97 ≤ b && b ≤ 122) || (48 ≤ b && b ≤ 57) ||
    b == 45 || b == 95 || b == 46 || b == 126

/-- Uppercase hexadecimal digit, as Go's net/url escape emits. -/
def upperHexDigit (n : Nat) : Char :=
  if n < 10 then Char.ofNat (48 + n) else Char.ofNat (55 + n)

/-- Go net/url escaping of one byte in query-component mode: unreserved
bytes are kept, a space becomes a plus sign, every other byte is
percent-encoded in uppercase hex. -/
def escapeByte (b : Nat) : List Char :=
  if isUnreservedByte b then [Char.ofNat b]
  else if b == 32 then ['+']
  else ['%', upperHexDigit (b / 16), upperHexDigit (b % 16)]

/-- Escape a byte sequence, concatenating the escapes of its bytes. -/
def escapeBytes : List Nat → List Char
  | [] => []
  | b :: bs => escapeByte b ++ escapeBytes bs

/-- Go url.QueryEscape: escape every byte of the string in query-component
mode. -/
def QueryEscape (s : String) : String :=
  String.mk (escapeBytes (stringBytes s.data))

theorem mem_utf8EncodeChar_lt {c : Char} {b : Nat} (hb : b ∈ utf8EncodeChar c) :
    b < 256 := by
  have hor : ∀ x y : Nat, x < 256 → y < 256 → x ||| y < 256 := by
    intro x y hx hy
    have h256 : (2 : Nat) ^ 8 = 256 := by norm_num
    rw [← h256] at hx hy
    have := Nat.or_lt_two_pow hx hy
    rw [h256] at this
    exact this
  have hand : ∀ x m : Nat, m < 256 → x &&& m < 256 :=
    fun x m hm => lt_of_le_of_lt (Nat.and_le_right) hm
  unfold utf8EncodeChar at hb
  split at hb
  · simp only [List.mem_singleton] at hb
    omega
  · split at hb
    · simp only [List.mem_cons, List.mem_singleton, List.not_mem_nil, or_false] at hb
      rcases hb with rfl | rfl
      · exact hor _ _ (by norm_num) (hand _ _ (by norm_num))
      · exact hor _ _ (by norm_num) (hand _ _ (by norm_num))
    · split at hb
      · simp only [List.mem_cons, List.mem_singleton, List.not_mem_nil, or_false] at hb
        rcases hb with rfl | rfl | rfl
        · exact hor _ _ (by norm_num) (hand _ _ (by norm_num))
        · exact hor _ _ (by norm_num) (hand _ _ (by norm_num))
        · exact hor _ _ (by norm_num) (hand _ _ (by norm_num))
      · simp only [List.mem_cons, List.mem_singleton, List.not_mem_nil, or_false] at hb
        rcases hb with rfl | rfl | rfl | rfl
        · exact hor _ _ (by norm_num) (hand _ _ (by norm_num))
        · exact hor _ _ (by norm_num) (hand _ _ (by norm_num))
        · exact hor _ _ (by norm_num) (hand _ _ (by norm_num))
        · exact hor _ _ (by norm_num) (hand _ _ (by norm_num))

set_option maxRecDepth 8192 in
theorem escapeByte_no_slash_fin : ∀ n : Fin 256, '/' ∉ escapeByte n.val := by decide

theorem escapeByte_no_slash {b : Nat} (hb : b < 256) : '/' ∉ escapeByte b :=
  escapeByte_no_slash_fin ⟨b, hb⟩

theorem escapeBytes_no_slash {bs : List Nat} (h : ∀ b ∈ bs, b < 256) :
    '/' ∉ escapeBytes bs := by
  induction bs with
  | nil => simp [escapeBytes]
  | cons b bs ih =>
    simp only [escapeBytes, List.mem_append]
    push_neg
    exact ⟨escapeByte_no_slash (h b (List.mem_cons_self b bs)),
      ih fun x hx => h x (List.mem_cons_of_mem b hx)⟩

theorem stringBytes_lt : ∀ (cs : List Char), ∀ b ∈ stringBytes cs, b < 256 := by
  intro cs
  induction cs with
  | nil => simp [stringBytes]
  | cons c cs ih =>
    intro b hb
    simp only [stringBytes, List.mem_append] at hb
    rcases hb with hb | hb
    · exact mem_utf8EncodeChar_lt hb
    · exact ih b hb

/-- The query escape of any string contains no slash: an escaped identifier
always occupies a single path segment of the request URL. -/
theorem QueryEscape_no_slash (s : String) : '/' ∉ (QueryEscape s).data :=
  escapeBytes_no_slash (stringBytes_lt s.data)

/-! ## Data-transfer objects

Optional JSON fields (Go nullable pointers) are Option; values of Go type
*time.Time, *ISOTime and BuildStateValue are abstracted as their encoded
string form, which the claims never inspect. -/

/-- CommitStats represents the number of added and deleted files in a
commit. -/
structure CommitStats where
  Additions : Int
  Deletions : Int
  Total : Int
deriving DecidableEq, Repr

/-- Commit represents a GitLab commit. -/
structure Commit where
  ID : String
  ShortID : String
  Title : String
  AuthorName : String
  AuthorEmail : String
  AuthoredDate : Option String
  CommitterName : String
  CommitterEmail : String
  CommittedDate : Option String
  CreatedAt : Option String
  Message : String
  ParentIDs : List String
  Stats : Option CommitStats
  Status : Option String
deriving DecidableEq, Repr

/-- UserIdentity represents a user identity. -/
structure UserIdentity where
  Provider : String
  ExternUID : String
deriving DecidableEq, Repr

/-- Modelled from the spec: CustomAttribute is a DTO defined outside the
provided sources, a key/value pair attached to a user. -/
structure CustomAttribute where
  Key : String
  Value : String
deriving DecidableEq, Repr

/-- User represents a GitLab user. -/
structure User where
  ID : Int
  Username : String
  Email : String
  Name : String
  State : String
  CreatedAt : Option String
  Bio : String
  Location : String
  PublicEmail : String
  Skype : String
  Linkedin : String
  Twitter : String
  WebsiteURL : String
  Organization : String
  ExternUID : String
  Provider : String
  ThemeID : Int
  LastActivityOn : Option String
  ColorSchemeID : Int
  IsAdmin : Bool
  AvatarURL : String
  CanCreateGroup : Bool
  CanCreateProject : Bool
  ProjectsLimit : Int
  CurrentSignInAt : Option String
  LastSignInAt : Option String
  ConfirmedAt : Option String
  TwoFactorEnabled : Bool
  Identities : List UserIdentity
  External : Bool
  PrivateProfile : Bool
  SharedRunnersMinutesLimit : Int
  CustomAttributes : List CustomAttribute
deriving DecidableEq, Repr

/-- FileAction represents the available actions that can be performed on a
file. -/
inductive FileAction where
  | FileCreate
  | FileDelete
  | FileMove
  | FileUpdate
deriving DecidableEq, Repr

/-- CommitAction represents a single file action within a commit. -/
structure CommitAction where
  Action : FileAction
  FilePath : String
  PreviousPath : String
  Content : String
  Encoding : String
deriving DecidableEq, Repr

/-! ## Options structs and their wire encoding

The structs carry url struct tags naming the wire field of each optional
parameter, almost always with the omitempty flag.  The encoding itself is
done by the query-encoding library (treated as given by the spec), whose
documented behaviour on a field holding a nullable pointer is: with
omitempty a nil pointer is omitted, without omitempty a nil pointer is
encoded as an empty value; a set pointer is always encoded, under the
tag's wire name.  An encoded query/body is modelled as the list of
name/value pairs in field declaration order. -/

/-- Encoding of one field tagged with omitempty: a nil pointer is omitted,
a set one is rendered under the wire name. -/
def encodeOmitempty {α : Type} (name : String) (render : α → String) :
    Option α → List (String × String)
  | none => []
  | some a => [(name, render a)]

/-- Encoding of one pointer field without omitempty: the wire name is
always present, with an empty value for a nil pointer. -/
def encodeRequired {α : Type} (name : String) (render : α → String) :
    Option α → List (String × String)
  | none => [(name, "")]
  | some a => [(name, render a)]

/-- Go rendering of a boolean parameter value. -/
def goBool : Bool → String
  | true => "true"
  | false => "false"

/-- Modelled from the spec: ListOptions, defined outside the provided
sources, holds the pagination parameters page and per_page, optional and
omitted from the query when absent. -/
structure ListOptions where
  Page : Option Nat
  PerPage : Option Nat
deriving DecidableEq, Repr

/-- Wire encoding of the embedded ListOptions. -/
def encodeListOptions (o : ListOptions) : List (String × String) :=
  encodeOmitempty "page" toString o.Page ++ encodeOmitempty "per_page" toString o.PerPage

/-- ListCommitsOptions represents the available ListCommits() options.
Tags: ref_name,omitempty; since,omitempty; until,omitempty; path,omitempty;
all,omitempty; with_stats,omitempty. -/
structure ListCommitsOptions where
  listOptions : ListOptions
  RefName : Option String
  Since : Option String
  Until : Option String
  Path : Option String
  All : Option Bool
  WithStats : Option Bool
deriving DecidableEq, Repr

/-- Wire encoding of ListCommitsOptions, fields in declaration order. -/
def encodeListCommitsOptions (o : ListCommitsOptions) : List (String × String) :=
  encodeListOptions o.listOptions
    ++ encodeOmitempty "ref_name" id o.RefName
    ++ encodeOmitempty "since" id o.Since
    ++ encodeOmitempty "until" id o.Until
    ++ encodeOmitempty "path" id o.Path
    ++ encodeOmitempty "all" goBool o.All
    ++ encodeOmitempty "with_stats" goBool o.WithStats

/-- CherryPickCommitOptions represents the available options for
cherry-picking a commit.  Tag of TargetBranch: branch — without
omitempty. -/
structure CherryPickCommitOptions where
  TargetBranch : Option String
deriving DecidableEq, Repr

/-- Wire encoding of CherryPickCommitOptions. -/
def encodeCherryPickCommitOptions (o : CherryPickCommitOptions) : List (String × String) :=
  encodeRequired "branch" id o.TargetBranch

/-- PostCommitCommentOptions represents the available PostCommitComment()
options.  Tags: note,omitempty; path; line; line_type — the last three
without omitempty. -/
structure PostCommitCommentOptions where
  Note : Option String
  Path : Option String
  Line : Option Int
  LineType : Option String
deriving DecidableEq, Repr

/-- Wire encoding of PostCommitCommentOptions, fields in declaration
order. -/
def encodePostCommitCommentOptions (o : PostCommitCommentOptions) : List (String × String) :=
  encodeOmitempty "note" id o.Note
    ++ encodeRequired "path" id o.Path
    ++ encodeRequired "line" toString o.Line
    ++ encodeRequired "line_type" id o.LineType

/-- CreateCommitOptions represents the available options for a new
commit. -/
structure CreateCommitOptions where
  Branch : Option String
  CommitMessage : Option String
  StartBranch : Option String
  Actions : List CommitAction
  AuthorEmail : Option String
  AuthorName : Option String
deriving DecidableEq, Repr

/-! ## URL path construction

Each definition transcribes the fmt.Sprintf call of the corresponding
method; project is the parseID-normalised project id. -/

/-- ListCommits: projects/%s/repository/commits with the project
query-escaped. -/
def listCommitsURL (project : String) : String :=
  "projects/" ++ QueryEscape project ++ "/repository/commits"

/-- GetCommit: projects/%s/repository/commits/%s — the sha is interpolated
verbatim. -/
def getCommitURL (project sha : String) : String :=
  "projects/" ++ QueryEscape project ++ "/repository/commits/" ++ sha

/-- CreateCommit: projects/%s/repository/commits with the project
query-escaped. -/
def createCommitURL (project : String) : String :=
  "projects/" ++ QueryEscape project ++ "/repository/commits"

/-- SetCommitStatus: projects/%s/statuses/%s — the sha is interpolated
verbatim. -/
def setCommitStatusURL (project sha : String) : String :=
  "projects/" ++ QueryEscape project ++ "/statuses/" ++ sha

/-- GetMergeRequestsByCommit:
projects/%s/repository/commits/%s/merge_requests with both the project and
the sha query-escaped. -/
def getMergeRequestsByCommitURL (project sha : String) : String :=
  "projects/" ++ QueryEscape project ++ "/repository/commits/" ++ QueryEscape sha
    ++ "/merge_requests"

/-- CherryPickCommit: projects/%s/repository/commits/%s/cherry_pick with
both the project and the sha query-escaped. -/
def cherryPickCommitURL (project sha : String) : String :=
  "projects/" ++ QueryEscape project ++ "/repository/commits/" ++ QueryEscape sha
    ++ "/cherry_pick"

/-- GetUser: users/%d. -/
def getUserURL (user : Int) : String :=
  "users/" ++ toString user

/-- DeleteUser: users/%d. -/
def deleteUserURL (user : Int) : String :=
  "users/" ++ toString user

/-- DeleteSSHKey: user/keys/%d. -/
def deleteSSHKeyURL (key : Int) : String :=
  "user/keys/" ++ toString key

/-- DeleteEmail: user/emails/%d. -/
def deleteEmailURL (email : Int) : String :=
  "user/emails/" ++ toString email

/-- BlockUser: users/%d/block. -/
def blockUserURL (user : Int) : String :=
  "users/" ++ toString user ++ "/block"

/-- UnblockUser: users/%d/unblock. -/
def unblockUserURL (user : Int) : String :=
  "users/" ++ toString user ++ "/unblock"

/-! ## Method embeddings

Each service method is embedded as a function of its Go arguments plus two
oracles for the externally-determined outcomes: whether NewRequest fails,
and the transport outcome of the one Client.Do call.  The method returns
the service value and the options argument unchanged (the Go bodies never
assign through either), its Go results, and the trace of HTTP requests it
handed to Client.Do. -/

/-- Results of a method returning (entity, *Response, error), plus the
requests it performed. -/
structure EntityResult (α : Type) where
  entity : Option α
  resp : Option Response
  err : Option GoError
  trace : List HttpRequest
deriving DecidableEq, Repr

/-- Results of a method returning (*Response, error), plus the requests it
performed. -/
structure RespErrResult where
  resp : Option Response
  err : Option GoError
  trace : List HttpRequest
deriving DecidableEq, Repr

/-- Results of a method returning only an error, plus the requests it
performed. -/
structure ErrOnlyResult where
  err : Option GoError
  trace : List HttpRequest
deriving DecidableEq, Repr

/-- ListCommits gets a list of repository commits in a project:
parseID, then GET projects/%s/repository/commits, then Do. -/
def ListCommits (s : CommitsService) (pid : PID) (opt : Option ListCommitsOptions)
    (nrFail : Option GoError) (t : Transport (List Commit)) :
    CommitsService × Option ListCommitsOptions × EntityResult (List Commit) :=
  match parseID pid with
  | .error e => (s, opt, ⟨none, none, some e, []⟩)
  | .ok project =>
    match newRequest "GET" (listCommitsURL project) nrFail with
    | .error e => (s, opt, ⟨none, none, some e, []⟩)
    | .ok req =>
      match clientDo t with
      | .error (r, e) => (s, opt, ⟨none, r, some e, [req]⟩)
      | .ok (resp, c) => (s, opt, ⟨some c, some resp, none, [req]⟩)

/-- GetCommit gets a specific commit: parseID, then GET
projects/%s/repository/commits/%s, then Do. -/
def GetCommit (s : CommitsService) (pid : PID) (sha : String)
    (nrFail : Option GoError) (t : Transport Commit) :
    CommitsService × EntityResult Commit :=
  match parseID pid with
  | .error e => (s, ⟨none, none, some e, []⟩)
  | .ok project =>
    match newRequest "GET" (getCommitURL project sha) nrFail with
    | .error e => (s, ⟨none, none, some e, []⟩)
    | .ok req =>
      match clientDo t with
      | .error (r, e) => (s, ⟨none, r, some e, [req]⟩)
      | .ok (resp, c) => (s, ⟨some c, some resp, none, [req]⟩)

/-- CreateCommit creates a commit with multiple files and actions:
parseID, then POST projects/%s/repository/commits, then Do. -/
def CreateCommit (s : CommitsService) (pid : PID) (opt : Option CreateCommitOptions)
    (nrFail : Option GoError) (t : Transport Commit) :
    CommitsService × Option CreateCommitOptions × EntityResult Commit :=
  match parseID pid with
  | .error e => (s, opt, ⟨none, none, some e, []⟩)
  | .ok project =>
    match newRequest "POST" (createCommitURL project) nrFail with
    | .error e => (s, opt, ⟨none, none, some e, []⟩)
    | .ok req =>
      match clientDo t with
      | .error (r, e) => (s, opt, ⟨none, r, some e, [req]⟩)
      | .ok (resp, c) => (s, opt, ⟨some c, some resp, none, [req]⟩)

/-- CherryPickCommit cherry picks a commit to a given branch: parseID,
then POST projects/%s/repository/commits/%s/cherry_pick, then Do. -/
def CherryPickCommit (s : CommitsService) (pid : PID) (sha : String)
    (opt : Option CherryPickCommitOptions) (nrFail : Option GoError)
    (t : Transport Commit) :
    CommitsService × Option CherryPickCommitOptions × EntityResult Commit :=
  match parseID pid with
  | .error e => (s, opt, ⟨none, none, some e, []⟩)
  | .ok project =>
    match newRequest "POST" (cherryPickCommitURL project sha) nrFail with
    | .error e => (s, opt, ⟨none, none, some e, []⟩)
    | .ok req =>
      match clientDo t with
      | .error (r, e) => (s, opt, ⟨none, r, some e, [req]⟩)
      | .ok (resp, c) => (s, opt, ⟨some c, some resp, none, [req]⟩)

/-- GetUser gets a single user: GET users/%d, then Do. -/
def GetUser (s : UsersService) (user : Int) (nrFail : Option GoError)
    (t : Transport User) : UsersService × EntityResult User :=
  match newRequest "GET" (getUserURL user) nrFail with
  | .error e => (s, ⟨none, none, some e, []⟩)
  | .ok req =>
    match clientDo t with
    | .error (r, e) => (s, ⟨none, r, some e, [req]⟩)
    | .ok (resp, usr) => (s, ⟨some usr, some resp, none, [req]⟩)

/-- DeleteUser deletes a user: DELETE users/%d, then Do, whose result pair
is returned as is with no status-code branching. -/
def DeleteUser (s : UsersService) (user : Int) (nrFail : Option GoError)
    (t : Transport Unit) : UsersService × RespErrResult :=
  match newRequest "DELETE" (deleteUserURL user) nrFail with
  | .error e => (s, ⟨none, some e, []⟩)
  | .ok req =>
    match clientDo t with
    | .error (r, e) => (s, ⟨r, some e, [req]⟩)
    | .ok (resp, _) => (s, ⟨some resp, none, [req]⟩)

/-- DeleteSSHKey deletes a key owned by the authenticated user: DELETE
user/keys/%d, then Do, whose result pair is returned as is. -/
def DeleteSSHKey (s : UsersService) (key : Int) (nrFail : Option GoError)
    (t : Transport Unit) : UsersService × RespErrResult :=
  match newRequest "DELETE" (deleteSSHKeyURL key) nrFail with
  | .error e => (s, ⟨none, some e, []⟩)
  | .ok req =>
    match clientDo t with
    | .error (r, e) => (s, ⟨r, some e, [req]⟩)
    | .ok (resp, _) => (s, ⟨some resp, none, [req]⟩)

/-- DeleteEmail deletes an email owned by the authenticated user: DELETE
user/emails/%d, then Do, whose result pair is returned as is. -/
def DeleteEmail (s : UsersService) (email : Int) (nrFail : Option GoError)
    (t : Transport Unit) : UsersService × RespErrResult :=
  match newRequest "DELETE" (deleteEmailURL email) nrFail with
  | .error e => (s, ⟨none, some e, []⟩)
  | .ok req =>
    match clientDo t with
    | .error (r, e) => (s, ⟨r, some e, [req]⟩)
    | .ok (resp, _) => (s, ⟨some resp, none, [req]⟩)

/-- The status-code switch of BlockUser: nil on 201, a fixed message on
403 and 404, a generic unexpected-result-code error otherwise (a Go
switch on equality, transcribed as a chain of equality tests). -/
def blockUserStatusError (status : Nat) : Option GoError :=
  if status = 201 then none
  else if status = 403 then
    some ⟨"Cannot block a user that is already blocked by LDAP synchronization"⟩
  else if status = 404 then some ⟨"User does not exist"⟩
  else some ⟨"Received unexpected result code: " ++ toString status⟩

/-- The status-code switch of UnblockUser: nil on 201, a fixed message on
403 and 404, a generic unexpected-result-code error otherwise. -/
def unblockUserStatusError (status : Nat) : Option GoError :=
  if status = 201 then none
  else if status = 403 then
    some ⟨"Cannot unblock a user that is blocked by LDAP synchronization"⟩
  else if status = 404 then some ⟨"User does not exist"⟩
  else some ⟨"Received unexpected result code: " ++ toString status⟩

/-- BlockUser blocks the specified user: POST users/%d/block, then Do; a
Do failure is returned directly, otherwise the status switch decides. -/
def BlockUser (s : UsersService) (user : Int) (nrFail : Option GoError)
    (t : Transport Unit) : UsersService × ErrOnlyResult :=
  match newRequest "POST" (blockUserURL user) nrFail with
  | .error e => (s, ⟨some e, []⟩)
  | .ok req =>
    match clientDo t with
    | .error (_, e) => (s, ⟨some e, [req]⟩)
    | .ok (resp, _) => (s, ⟨blockUserStatusError resp.StatusCode, [req]⟩)

/-- UnblockUser unblocks the specified user: POST users/%d/unblock, then
Do; a Do failure is returned directly, otherwise the status switch
decides. -/
def UnblockUser (s : UsersService) (user : Int) (nrFail : Option GoError)
    (t : Transport Unit) : UsersService × ErrOnlyResult :=
  match newRequest "POST" (unblockUserURL user) nrFail with
  | .error e => (s, ⟨some e, []⟩)
  | .ok req =>
    match clientDo t with
    | .error (_, e) => (s, ⟨some e, [req]⟩)
    | .ok (resp, _) => (s, ⟨unblockUserStatusError resp.StatusCode, [req]⟩)

/-! ## Sample values used by witnesses -/

/-- A sample client handle. -/
def sampleClient : Client :=
  ⟨"https://gitlab.example.com/api/v4", "secret-token"⟩

/-- A sample users service. -/
def usersSvc : UsersService := ⟨sampleClient⟩

/-- A sample commits service. -/
def commitsSvc : CommitsService := ⟨sampleClient⟩

/-! ## Helper lemmas on the status switches -/

theorem blockUserStatusError_eq_none {st : Nat} :
    blockUserStatusError st = none ↔ st = 201 := by
  unfold blockUserStatusError
  split
  · simp_all
  · split
    · simp_all
    · split <;> simp_all

theorem unblockUserStatusError_eq_none {st : Nat} :
    unblockUserStatusError st = none ↔ st = 201 := by
  unfold unblockUserStatusError
  split
  · simp_all
  · split
    · simp_all
    · split <;> simp_all

/-- C1: for every user id, BlockUser and UnblockUser map the status code of
the response to the documented fixed error: nil on 201, the documented
LDAP-synchronization message on 403, the error User does not exist on 404,
and a generic unexpected-result-code error on every other status. -/
theorem blockUnblock_status_mapping (s : UsersService) (u : Int) (st : Nat) :
    (st = 201 →
      (BlockUser s u none (Transport.reply st (Except.ok ()))).2.err = none ∧
      (UnblockUser s u none (Transport.reply st (Except.ok ()))).2.err = none) ∧
    (st = 403 →
      (BlockUser s u none (Transport.reply st (Except.ok ()))).2.err =
        some ⟨"Cannot block a user that is already blocked by LDAP synchronization"⟩ ∧
      (UnblockUser s u none (Transport.reply st (Except.ok ()))).2.err =
        some ⟨"Cannot unblock a user that is blocked by LDAP synchronization"⟩) ∧
    (st = 404 →
      (BlockUser s u none (Transport.reply st (Except.ok ()))).2.err =
        some ⟨"User does not exist"⟩ ∧
      (UnblockUser s u none (Transport.reply st (Except.ok ()))).2.err =
        some ⟨"User does not exist"⟩) ∧
    (st ≠ 201 → st ≠ 403 → st ≠ 404 →
      (BlockUser s u none (Transport.reply st (Except.ok ()))).2.err =
        some ⟨"Received unexpected result code: " ++ toString st⟩ ∧
      (UnblockUser s u none (Transport.reply st (Except.ok ()))).2.err =
        some ⟨"Received unexpected result code: " ++ toString st⟩) := by
  refine ⟨?_, ?_, ?_, ?_⟩
  · rintro rfl; exact ⟨rfl, rfl⟩
  · rintro rfl; exact ⟨rfl, rfl⟩
  · rintro rfl; exact ⟨rfl, rfl⟩
  · intro h1 h2 h3
    constructor <;>
      simp [BlockUser, UnblockUser, newRequest, clientDo,
        blockUserStatusError, unblockUserStatusError, h1, h2, h3]

/-- Witness for C1: the mapping evaluated at user 7 and statuses 403, 404
and 201. -/
theorem blockUnblock_status_mapping_witness :
    (BlockUser usersSvc 7 none (Transport.reply 403 (Except.ok ()))).2.err =
      some ⟨"Cannot block a user that is already blocked by LDAP synchronization"⟩ ∧
    (UnblockUser usersSvc 7 none (Transport.reply 404 (Except.ok ()))).2.err =
      some ⟨"User does not exist"⟩ ∧
    (BlockUser usersSvc 7 none (Transport.reply 201 (Except.ok ()))).2.err = none :=
  ⟨((blockUnblock_status_mapping usersSvc 7 403).2.1 rfl).1,
    ((blockUnblock_status_mapping usersSvc 7 404).2.2.1 rfl).2,
    ((blockUnblock_status_mapping usersSvc 7 201).1 rfl).1⟩

/-- C9: BlockUser and UnblockUser report success exactly when request
construction succeeds, the transport call succeeds, and the response
status code is 201; every other outcome, including a 200 OK response,
yields a non-nil error. -/
theorem blockUnblock_success_iff_201 (s : UsersService) (u : Int)
    (nrFail : Option GoError) (t : Transport Unit) :
    ((BlockUser s u nrFail t).2.err = none ↔
      nrFail = none ∧ t = Transport.reply 201 (Except.ok ())) ∧
    ((UnblockUser s u nrFail t).2.err = none ↔
      nrFail = none ∧ t = Transport.reply 201 (Except.ok ())) := by
  cases nrFail with
  | some e => simp [BlockUser, UnblockUser, newRequest]
  | none =>
    cases t with
    | netError e => simp [BlockUser, UnblockUser, newRequest, clientDo]
    | reply st dec =>
      cases dec with
      | error e => simp [BlockUser, UnblockUser, newRequest, clientDo]
      | ok v =>
        cases v
        constructor <;>
          simp [BlockUser, UnblockUser, newRequest, clientDo,
            blockUserStatusError_eq_none, unblockUserStatusError_eq_none]

/-- Counterexample for C6: status 200 is a 2xx response, yet BlockUser
returns the generic unexpected-result-code error for it, because the
switch treats every status other than 201, 403 and 404 alike. -/
theorem blockUser_200_generic_error :
    (BlockUser usersSvc 1 none (Transport.reply 200 (Except.ok ()))).2.err =
      some ⟨"Received unexpected result code: 200"⟩ := rfl

/-- C6 (amended): for BlockUser and UnblockUser, every response status
other than 201, 403 and 404 — every non-2xx status except the two mapped
ones, but also every 2xx status other than 201, such as 200 — produces
the generic unexpected-result-code error. -/
theorem blockUnblock_generic_unless_mapped (s : UsersService) (u : Int)
    (st : Nat) (h1 : st ≠ 201) (h2 : st ≠ 403) (h3 : st ≠ 404) :
    (BlockUser s u none (Transport.reply st (Except.ok ()))).2.err =
      some ⟨"Received unexpected result code: " ++ toString st⟩ ∧
    (UnblockUser s u none (Transport.reply st (Except.ok ()))).2.err =
      some ⟨"Received unexpected result code: " ++ toString st⟩ := by
  constructor <;>
    simp [BlockUser, UnblockUser, newRequest, clientDo,
      blockUserStatusError, unblockUserStatusError, h1, h2, h3]

/-- Witness for C6 (amended) at status 500. -/
theorem blockUnblock_generic_unless_mapped_witness :
    (BlockUser usersSvc 2 none (Transport.reply 500 (Except.ok ()))).2.err =
      some ⟨"Received unexpected result code: 500"⟩ :=
  (blockUnblock_generic_unless_mapped usersSvc 2 500 (by decide) (by decide)
    (by decide)).1

/-- Counterexample for C2: GetCommit interpolates the commit sha verbatim
into the path, so for the sha a/b the URL differs from what escaping both
identifiers would produce — the claim that every identifier is escaped in
every operation fails. -/
theorem getCommit_sha_not_escaped :
    getCommitURL "p" "a/b" ≠
      "projects/" ++ QueryEscape "p" ++ "/repository/commits/" ++ QueryEscape "a/b" := by
  decide

/-- C2 (amended): the project id is query-escaped before interpolation in
every commit operation, and the escape of any identifier contains no
slash, so it occupies a single path segment; the commit sha, however, is
escaped only in GetMergeRequestsByCommit and CherryPickCommit and is
interpolated verbatim in GetCommit and SetCommitStatus. -/
theorem commit_identifier_escaping (project sha : String) :
    '/' ∉ (QueryEscape project).data ∧
    '/' ∉ (QueryEscape sha).data ∧
    listCommitsURL project = "projects/" ++ QueryEscape project ++ "/repository/commits" ∧
    getCommitURL project sha =
      "projects/" ++ QueryEscape project ++ "/repository/commits/" ++ sha ∧
    setCommitStatusURL project sha =
      "projects/" ++ QueryEscape project ++ "/statuses/" ++ sha ∧
    getMergeRequestsByCommitURL project sha =
      "projects/" ++ QueryEscape project ++ "/repository/commits/" ++ QueryEscape sha
        ++ "/merge_requests" ∧
    cherryPickCommitURL project sha =
      "projects/" ++ QueryEscape project ++ "/repository/commits/" ++ QueryEscape sha
        ++ "/cherry_pick" :=
  ⟨QueryEscape_no_slash project, QueryEscape_no_slash sha, rfl, rfl, rfl, rfl, rfl⟩

/-- C4: each operation constructs exactly the documented verb and URL
path: GetUser 42 hands Client.Do one GET request for users/42, GetUser in
general GET users/%d, and ListCommits one GET request for
projects/%s/repository/commits with the project escaped. -/
theorem request_verb_and_path (su : UsersService) (sc : CommitsService)
    (u : Int) (p : String) (opt : Option ListCommitsOptions)
    (tu : Transport User) (tc : Transport (List Commit)) :
    (GetUser su 42 none tu).2.trace = [⟨"GET", "users/42"⟩] ∧
    (GetUser su u none tu).2.trace = [⟨"GET", "users/" ++ toString u⟩] ∧
    (ListCommits sc (PID.str p) opt none tc).2.2.trace =
      [⟨"GET", "projects/" ++ QueryEscape p ++ "/repository/commits"⟩] := by
  have hu : ∀ (v : Int) (t : Transport User),
      (GetUser su v none t).2.trace = [⟨"GET", getUserURL v⟩] := by
    intro v t
    cases t with
    | netError e => rfl
    | reply st dec => cases dec <;> rfl
  have hc : ∀ t : Transport (List Commit),
      (ListCommits sc (PID.str p) opt none t).2.2.trace =
        [⟨"GET", listCommitsURL p⟩] := by
    intro t
    cases t with
    | netError e => rfl
    | reply st dec => cases dec <;> rfl
  exact ⟨hu 42 tu, hu u tu, hc tc⟩

/-- C5: the delete-style operations DeleteUser, DeleteSSHKey and
DeleteEmail do no status-code branching, so a 200 OK reply — which the
API documents also for a resource that was already deleted or never
existed — yields a nil error and the 200 response. -/
theorem delete_on_deleted_reports_success (s : UsersService) (u k e : Int) :
    (DeleteUser s u none (Transport.reply 200 (Except.ok ()))).2.err = none ∧
    (DeleteUser s u none (Transport.reply 200 (Except.ok ()))).2.resp = some ⟨200⟩ ∧
    (DeleteSSHKey s k none (Transport.reply 200 (Except.ok ()))).2.err = none ∧
    (DeleteSSHKey s k none (Transport.reply 200 (Except.ok ()))).2.resp = some ⟨200⟩ ∧
    (DeleteEmail s e none (Transport.reply 200 (Except.ok ()))).2.err = none ∧
    (DeleteEmail s e none (Transport.reply 200 (Except.ok ()))).2.resp = some ⟨200⟩ :=
  ⟨rfl, rfl, rfl, rfl, rfl, rfl⟩

/-- Counterexample for C7: a call whose project id fails to parse performs
zero HTTP round trips, not exactly one. -/
theorem listCommits_not_one_roundtrip :
    ((ListCommits commitsSvc (PID.other "float64") none none
      (Transport.reply 200 (Except.ok []))).2.2.trace).length ≠ 1 := by
  decide

/-- C7 (amended): every method leaves the service struct and its options
argument unchanged and performs at most one HTTP round trip: exactly one
when identifier parsing and request construction succeed, and zero when
parseID or NewRequest fails. -/
theorem methods_frame_and_roundtrips (sc : CommitsService) (su : UsersService)
    (pid : PID) (opt : Option ListCommitsOptions) (nrFail : Option GoError)
    (tc : Transport (List Commit)) (u : Int) (tu : Transport User) :
    (ListCommits sc pid opt nrFail tc).1 = sc ∧
    (ListCommits sc pid opt nrFail tc).2.1 = opt ∧
    (ListCommits sc pid opt nrFail tc).2.2.trace.length ≤ 1 ∧
    (∀ project, parseID pid = Except.ok project → nrFail = none →
      (ListCommits sc pid opt nrFail tc).2.2.trace.length = 1) ∧
    (GetUser su u nrFail tu).1 = su ∧
    (GetUser su u nrFail tu).2.trace.length ≤ 1 ∧
    (nrFail = none → (GetUser su u nrFail tu).2.trace.length = 1) := by
  have huser : (GetUser su u nrFail tu).1 = su ∧
      (GetUser su u nrFail tu).2.trace.length ≤ 1 ∧
      (nrFail = none → (GetUser su u nrFail tu).2.trace.length = 1) := by
    cases nrFail with
    | some e => exact ⟨rfl, Nat.zero_le 1, fun h => Option.noConfusion h⟩
    | none =>
      cases tu with
      | netError e => exact ⟨rfl, Nat.le_refl 1, fun _ => rfl⟩
      | reply st dec => cases dec <;> exact ⟨rfl, Nat.le_refl 1, fun _ => rfl⟩
  have hlist : (ListCommits sc pid opt nrFail tc).1 = sc ∧
      (ListCommits sc pid opt nrFail tc).2.1 = opt ∧
      (ListCommits sc pid opt nrFail tc).2.2.trace.length ≤ 1 ∧
      (∀ project, parseID pid = Except.ok project → nrFail = none →
        (ListCommits sc pid opt nrFail tc).2.2.trace.length = 1) := by
    cases pid with
    | other d =>
      exact ⟨rfl, rfl, Nat.zero_le 1, fun project h => by simp [parseID] at h⟩
    | int i =>
      cases nrFail with
      | some e =>
        exact ⟨rfl, rfl, Nat.zero_le 1, fun project _ h => Option.noConfusion h⟩
      | none =>
        cases tc with
        | netError e => exact ⟨rfl, rfl, Nat.le_refl 1, fun _ _ _ => rfl⟩
        | reply st dec =>
          cases dec <;> exact ⟨rfl, rfl, Nat.le_refl 1, fun _ _ _ => rfl⟩
    | str sp =>
      cases nrFail with
      | some e =>
        exact ⟨rfl, rfl, Nat.zero_le 1, fun project _ h => Option.noConfusion h⟩
      | none =>
        cases tc with
        | netError e => exact ⟨rfl, rfl, Nat.le_refl 1, fun _ _ _ => rfl⟩
        | reply st dec =>
          cases dec <;> exact ⟨rfl, rfl, Nat.le_refl 1, fun _ _ _ => rfl⟩
  exact ⟨hlist.1, hlist.2.1, hlist.2.2.1, hlist.2.2.2, huser.1, huser.2.1, huser.2.2⟩

/-- Witness for C7 (amended): at a parseable id and a succeeding request
construction, ListCommits performs exactly one round trip. -/
theorem methods_frame_and_roundtrips_witness :
    (ListCommits commitsSvc (PID.int 5) none none
      (Transport.reply 200 (Except.ok []))).2.2.trace.length = 1 :=
  (methods_frame_and_roundtrips commitsSvc usersSvc (PID.int 5) none none
    (Transport.reply 200 (Except.ok [])) 0
    (Transport.reply 200 (Except.error ⟨"unused"⟩))).2.2.2.1 "5" rfl rfl

/-- C8: every CommitsService method whose project id fails to parse
returns nil results, a nil Response and the parse error, and hands no
request to the transport. -/
theorem parse_error_returns_error (sc : CommitsService) (pid : PID)
    (e : GoError) (opt : Option ListCommitsOptions)
    (copt : Option CherryPickCommitOptions) (sha : String)
    (nrFail : Option GoError) (tc : Transport (List Commit))
    (tg tp : Transport Commit)
    (h : parseID pid = Except.error e) :
    (ListCommits sc pid opt nrFail tc).2.2 = ⟨none, none, some e, []⟩ ∧
    (GetCommit sc pid sha nrFail tg).2 = ⟨none, none, some e, []⟩ ∧
    (CherryPickCommit sc pid sha copt nrFail tp).2.2 = ⟨none, none, some e, []⟩ := by
  cases pid with
  | int i => simp [parseID] at h
  | str s2 => simp [parseID] at h
  | other d =>
    have he : GoError.mk ("invalid ID type " ++ d ++ ", the ID must be an int or a string") = e := by
      injection h
    subst he
    exact ⟨rfl, rfl, rfl⟩

/-- Witness for C8 at the unparseable id of Go type float64. -/
theorem parse_error_returns_error_witness :
    parseID (PID.other "float64") =
      Except.error ⟨"invalid ID type float64, the ID must be an int or a string"⟩ ∧
    (ListCommits commitsSvc (PID.other "float64") none none
        (Transport.netError ⟨"unused"⟩)).2.2 =
      ⟨none, none,
        some ⟨"invalid ID type float64, the ID must be an int or a string"⟩, []⟩ :=
  ⟨rfl,
    (parse_error_returns_error commitsSvc (PID.other "float64")
      ⟨"invalid ID type float64, the ID must be an int or a string"⟩ none none "x"
      none (Transport.netError ⟨"unused"⟩) (Transport.netError ⟨"unused"⟩)
      (Transport.netError ⟨"unused"⟩) rfl).1⟩

/-- C10: when Client.Do fails, each entity-returning method returns a nil
entity together with the response and error exactly as Do produced
them. -/
theorem do_failure_passthrough (sc : CommitsService) (su : UsersService)
    (pid : PID) (project : String) (opt : Option ListCommitsOptions)
    (copt : Option CreateCommitOptions) (u : Int) (r : Option Response)
    (e : GoError) (tc : Transport (List Commit)) (tu : Transport User)
    (tcc : Transport Commit)
    (hp : parseID pid = Except.ok project)
    (hc : clientDo tc = Except.error (r, e))
    (hu : clientDo tu = Except.error (r, e))
    (hcc : clientDo tcc = Except.error (r, e)) :
    ((ListCommits sc pid opt none tc).2.2.entity = none ∧
      (ListCommits sc pid opt none tc).2.2.resp = r ∧
      (ListCommits sc pid opt none tc).2.2.err = some e) ∧
    ((GetUser su u none tu).2.entity = none ∧
      (GetUser su u none tu).2.resp = r ∧
      (GetUser su u none tu).2.err = some e) ∧
    ((CreateCommit sc pid copt none tcc).2.2.entity = none ∧
      (CreateCommit sc pid copt none tcc).2.2.resp = r ∧
      (CreateCommit sc pid copt none tcc).2.2.err = some e) := by
  refine ⟨⟨?_, ?_, ?_⟩, ⟨?_, ?_, ?_⟩, ⟨?_, ?_, ?_⟩⟩ <;>
    simp only [ListCommits, GetUser, CreateCommit, newRequest, hp, hc, hu, hcc]

/-- Witness for C10 at a transport failure with no response. -/
theorem do_failure_passthrough_witness :
    (ListCommits commitsSvc (PID.int 7) none none
      (Transport.netError ⟨"connection refused"⟩)).2.2.err =
        some ⟨"connection refused"⟩ ∧
    (GetUser usersSvc 3 none (Transport.netError ⟨"connection refused"⟩)).2.entity =
      none :=
  ⟨(do_failure_passthrough commitsSvc usersSvc (PID.int 7) "7" none none 3 none
      ⟨"connection refused"⟩ (Transport.netError ⟨"connection refused"⟩)
      (Transport.netError ⟨"connection refused"⟩)
      (Transport.netError ⟨"connection refused"⟩) rfl rfl rfl rfl).1.2.2,
    (do_failure_passthrough commitsSvc usersSvc (PID.int 7) "7" none none 3 none
      ⟨"connection refused"⟩ (Transport.netError ⟨"connection refused"⟩)
      (Transport.netError ⟨"connection refused"⟩)
      (Transport.netError ⟨"connection refused"⟩) rfl rfl rfl rfl).2.1.1⟩

/-! ## Lemmas about the per-field encodings -/

/-- The wire names occurring in an encoded query/body. -/
def keys (l : List (String × String)) : List String :=
  l.map Prod.fst

theorem mem_keys_encodeOmitempty {α : Type} {name : String}
    {render : α → String} {v : Option α} {k : String} :
    k ∈ keys (encodeOmitempty name render v) ↔ k = name ∧ v.isSome := by
  cases v <;> simp [encodeOmitempty, keys]

theorem mem_keys_encodeRequired {α : Type} {name : String}
    {render : α → String} {v : Option α} {k : String} :
    k ∈ keys (encodeRequired name render v) ↔ k = name := by
  cases v <;> simp [encodeRequired, keys]

theorem pair_mem_encodeOmitempty {α : Type} {name : String}
    {render : α → String} {v : Option α} {k val : String} :
    (k, val) ∈ encodeOmitempty name render v ↔
      ∃ a, v = some a ∧ k = name ∧ val = render a := by
  cases v <;> simp [encodeOmitempty]

theorem pair_mem_encodeRequired {α : Type} {name : String}
    {render : α → String} {v : Option α} {k val : String} :
    (k, val) ∈ encodeRequired name render v ↔
      k = name ∧ ((v = none ∧ val = "") ∨ ∃ a, v = some a ∧ val = render a) := by
  cases v <;> simp [encodeRequired]

theorem keys_append (l l2 : List (String × String)) :
    keys (l ++ l2) = keys l ++ keys l2 :=
  List.map_append Prod.fst l l2

/-- Counterexample for C3: in PostCommitCommentOptions the fields path,
line and line_type carry no omitempty flag, so with every field unset the
encoded body is not empty — the unset fields are encoded (with empty
values) instead of being omitted. -/
theorem postCommitComment_unset_not_omitted :
    encodePostCommitCommentOptions ⟨none, none, none, none⟩ =
      [("path", ""), ("line", ""), ("line_type", "")] ∧
    encodePostCommitCommentOptions ⟨none, none, none, none⟩ ≠ [] :=
  ⟨rfl, by decide⟩

/-- C3 (amended): unset fields tagged omitempty are omitted from the
encoding and set ones are encoded under their documented wire names; the
pointer fields whose url tag lacks omitempty (CherryPickCommitOptions
TargetBranch, and Path, Line, LineType of PostCommitCommentOptions) are
encoded under their wire names even when unset, with an empty value. -/
theorem options_encoding (o : ListCommitsOptions) (c : CherryPickCommitOptions)
    (p : PostCommitCommentOptions) :
    ("page" ∈ keys (encodeListCommitsOptions o) ↔ o.listOptions.Page.isSome) ∧
    ("per_page" ∈ keys (encodeListCommitsOptions o) ↔ o.listOptions.PerPage.isSome) ∧
    ("ref_name" ∈ keys (encodeListCommitsOptions o) ↔ o.RefName.isSome) ∧
    ("since" ∈ keys (encodeListCommitsOptions o) ↔ o.Since.isSome) ∧
    ("until" ∈ keys (encodeListCommitsOptions o) ↔ o.Until.isSome) ∧
    ("path" ∈ keys (encodeListCommitsOptions o) ↔ o.Path.isSome) ∧
    ("all" ∈ keys (encodeListCommitsOptions o) ↔ o.All.isSome) ∧
    ("with_stats" ∈ keys (encodeListCommitsOptions o) ↔ o.WithStats.isSome) ∧
    (∀ n, o.listOptions.Page = some n →
      ("page", toString n) ∈ encodeListCommitsOptions o) ∧
    (∀ v, o.RefName = some v → ("ref_name", v) ∈ encodeListCommitsOptions o) ∧
    (∀ v, o.Until = some v → ("until", v) ∈ encodeListCommitsOptions o) ∧
    (∀ b, o.All = some b → ("all", goBool b) ∈ encodeListCommitsOptions o) ∧
    ("branch" ∈ keys (encodeCherryPickCommitOptions c)) ∧
    (∀ v, c.TargetBranch = some v →
      encodeCherryPickCommitOptions c = [("branch", v)]) ∧
    (c.TargetBranch = none → encodeCherryPickCommitOptions c = [("branch", "")]) ∧
    ("note" ∈ keys (encodePostCommitCommentOptions p) ↔ p.Note.isSome) ∧
    ("path" ∈ keys (encodePostCommitCommentOptions p)) ∧
    ("line" ∈ keys (encodePostCommitCommentOptions p)) ∧
    ("line_type" ∈ keys (encodePostCommitCommentOptions p)) ∧
    (∀ v, p.Note = some v → ("note", v) ∈ encodePostCommitCommentOptions p) ∧
    (∀ v, p.Path = some v → ("path", v) ∈ encodePostCommitCommentOptions p) ∧
    (p.Path = none → ("path", "") ∈ encodePostCommitCommentOptions p) := by
  refine ⟨?_, ?_, ?_, ?_, ?_, ?_, ?_, ?_, ?_, ?_, ?_, ?_, ?_, ?_, ?_, ?_, ?_,
    ?_, ?_, ?_, ?_, ?_⟩
  · simp [encodeListCommitsOptions, encodeListOptions, keys_append,
      List.mem_append, mem_keys_encodeOmitempty]
  · simp [encodeListCommitsOptions, encodeListOptions, keys_append,
      List.mem_append, mem_keys_encodeOmitempty]
  · simp [encodeListCommitsOptions, encodeListOptions, keys_append,
      List.mem_append, mem_keys_encodeOmitempty]
  · simp [encodeListCommitsOptions, encodeListOptions, keys_append,
      List.mem_append, mem_keys_encodeOmitempty]
  · simp [encodeListCommitsOptions, encodeListOptions, keys_append,
      List.mem_append, mem_keys_encodeOmitempty]
  · simp [encodeListCommitsOptions, encodeListOptions, keys_append,
      List.mem_append, mem_keys_encodeOmitempty]
  · simp [encodeListCommitsOptions, encodeListOptions, keys_append,
      List.mem_append, mem_keys_encodeOmitempty]
  · simp [encodeListCommitsOptions, encodeListOptions, keys_append,
      List.mem_append, mem_keys_encodeOmitempty]
  · intro n hn
    simp [encodeListCommitsOptions, encodeListOptions, List.mem_append,
      pair_mem_encodeOmitempty, hn]
  · intro v hv
    simp [encodeListCommitsOptions, encodeListOptions, List.mem_append,
      pair_mem_encodeOmitempty, hv]
  · intro v hv
    simp [encodeListCommitsOptions, encodeListOptions, List.mem_append,
      pair_mem_encodeOmitempty, hv]
  · intro b hb
    simp [encodeListCommitsOptions, encodeListOptions, List.mem_append,
      pair_mem_encodeOmitempty, hb]
  · simp [encodeCherryPickCommitOptions, mem_keys_encodeRequired]
  · intro v hv
    simp [encodeCherryPickCommitOptions, encodeRequired, hv]
  · intro hv
    simp [encodeCherryPickCommitOptions, encodeRequired, hv]
  · simp [encodePostCommitCommentOptions, keys_append, List.mem_append,
      mem_keys_encodeOmitempty, mem_keys_encodeRequired]
  · simp [encodePostCommitCommentOptions, keys_append, List.mem_append,
      mem_keys_encodeOmitempty, mem_keys_encodeRequired]
  · simp [encodePostCommitCommentOptions, keys_append, List.mem_append,
      mem_keys_encodeOmitempty, mem_keys_encodeRequired]
  · simp [encodePostCommitCommentOptions, keys_append, List.mem_append,
      mem_keys_encodeOmitempty, mem_keys_encodeRequired]
  · intro v hv
    simp [encodePostCommitCommentOptions, List.mem_append,
      pair_mem_encodeOmitempty, pair_mem_encodeRequired, hv]
  · intro v hv
    simp [encodePostCommitCommentOptions, List.mem_append,
      pair_mem_encodeOmitempty, pair_mem_encodeRequired, hv]
  · intro hv
    simp [encodePostCommitCommentOptions, List.mem_append,
      pair_mem_encodeOmitempty, pair_mem_encodeRequired, hv]

/-- Witness for C3 (amended): encodings evaluated at concrete options with
page 2, ref_name master, an unset cherry-pick branch and a set note. -/
theorem options_encoding_witness :
    ("page", "2") ∈ encodeListCommitsOptions
      ⟨⟨some 2, none⟩, some "master", none, none, none, some true, none⟩ ∧
    ("ref_name", "master") ∈ encodeListCommitsOptions
      ⟨⟨some 2, none⟩, some "master", none, none, none, some true, none⟩ ∧
    encodeCherryPickCommitOptions ⟨none⟩ = [("branch", "")] ∧
    ("note", "hi") ∈ encodePostCommitCommentOptions ⟨some "hi", none, none, none⟩ := by
  obtain ⟨-, -, -, -, -, -, -, -, h9, h10, -, -, -, -, h15, -, -, -, -, h20, -, -⟩ :=
    options_encoding
      ⟨⟨some 2, none⟩, some "master", none, none, none, some true, none⟩
      ⟨none⟩ ⟨some "hi", none, none, none⟩
  exact ⟨h9 2 rfl, h10 "master" rfl, h15 rfl, h20 "hi" rfl⟩

end Gitlab
